import Mathlib

/-!
Verification of the historical-data view controller of the QcOpenAirMap3
dashboard (the `ModuleAirSidePanel` React component and the
`ModuleAirService` REST wrapper).

The development shallowly embeds the component's pure logic and its
event-driven state transitions:

* the range/step policy (`getSupportedTimeStepsForPollutants`,
  `getInitialTimeStepForPollutants`, `adjustTimeRangeIfNeeded`),
* the statistics derivation (`computeStats`),
* the service's historical-data mapping (`ModuleAirFetchHistoricalData`),
* a transition system (`applyEvent`) for the component's handlers
  (`syncStationEffect`, `handlePollutantToggle`, `handleTimeRangeChange`,
  `handleTimeStepChange`) and fetch settlements, with JavaScript `Date`
  arithmetic modelled as integer milliseconds and `Date` string
  truncation (`toISOString().split("T")[0]`) as floor division by the
  number of milliseconds in a day.

The pollutant configuration table (`constants/pollutants`) and the
`getMaxHistoryDays` lookup (`HistoricalTimeRangeSelector`) are not part
of the sources; functions are parameterised over them, and concrete
instances used in counterexamples are modelled from the spec.
-/

/-! ## Pollutant configuration and supported time steps -/

/-- Configuration record for one pollutant, as used by the side panel:
an optional display unit and an optional list of supported time steps.
Modelled from the spec: the `constants/pollutants` module is not in the
sources; per the spec each pollutant channel may declare the subset of
aggregation granularities it supports, and declares a display unit. -/
structure PollutantConfig where
  name : String
  unit : Option String
  supportedTimeSteps : Option (List String)
deriving DecidableEq

/-- The pollutant table is an ordered association list
(`Object.entries` order); `lookupPollutant` models `pollutants[code]`. -/
def lookupPollutant (tbl : List (String × PollutantConfig)) (code : String) :
    Option PollutantConfig :=
  (tbl.find? (fun e => e.1 == code)).map (·.2)

/-- `MODULEAIR_TIMESTEP_OPTIONS` from `ModuleAirSidePanel`. -/
def MODULEAIR_TIMESTEP_OPTIONS : List String :=
  ["instantane", "quartHeure", "heure", "jour"]

/-- `getSupportedTimeStepsForPollutants` from `ModuleAirSidePanel`:
an empty selection yields the full step list; otherwise the selection is
reduced over, starting from the full list, filtering by each pollutant's
declared `supportedTimeSteps` whenever that declaration is present and
non-empty (missing configs and missing or empty declarations are
skipped). -/
def getSupportedTimeStepsForPollutants (tbl : List (String × PollutantConfig))
    (pollutantCodes : List String) : List String :=
  if pollutantCodes.isEmpty then MODULEAIR_TIMESTEP_OPTIONS
  else
    pollutantCodes.foldl (fun acc code =>
      match lookupPollutant tbl code with
      | some cfg =>
        match cfg.supportedTimeSteps with
        | some steps =>
          if steps.isEmpty then acc
          else acc.filter (fun timeStep => steps.contains timeStep)
        | none => acc
      | none => acc) MODULEAIR_TIMESTEP_OPTIONS

/-- `getInitialTimeStepForPollutants` from `ModuleAirSidePanel`. -/
def getInitialTimeStepForPollutants (tbl : List (String × PollutantConfig))
    (pollutantCodes : List String) (fallback : String) : String :=
  let supported := getSupportedTimeStepsForPollutants tbl pollutantCodes
  match supported with
  | [] => fallback
  | s0 :: _ => if supported.contains fallback then fallback else s0

/-- Specification-side characterisation used to state what
`getSupportedTimeStepsForPollutants` computes: whether pollutant `code`
lets time step `ts` through (it does unless the pollutant has a
non-empty declared step list that omits `ts`). -/
def stepAllowedBy (tbl : List (String × PollutantConfig))
    (ts code : String) : Bool :=
  match lookupPollutant tbl code with
  | some cfg =>
    match cfg.supportedTimeSteps with
    | some steps => if steps.isEmpty then true else steps.contains ts
    | none => true
  | none => true

/-! ## Time ranges and the range/step reconciliation policy -/

/-- The preset identifiers of `TimeRange` (`"3h" | "24h" | "7d" | "30d"`). -/
inductive TimeRangePreset
  | h3
  | h24
  | d7
  | d30
deriving DecidableEq

/-- A custom range: a pair of `"YYYY-MM-DD"` calendar dates, modelled as
day numbers (the number of the UTC day; parsing such a string yields
midnight UTC of that day, i.e. `day * dayMs` in milliseconds). -/
structure CustomDates where
  startDate : Int
  endDate : Int
deriving DecidableEq

/-- `TimeRange` from `HistoricalTimeRangeSelector`, as consumed by the
side panel: a tagged union of a preset and a custom date pair. -/
inductive TimeRange
  | preset (p : TimeRangePreset)
  | custom (c : CustomDates)
deriving DecidableEq

/-- Milliseconds in a day. -/
def dayMs : Int := 24 * 60 * 60 * 1000

/-- The preset-to-days table appearing in `adjustTimeRangeIfNeeded` and
`isTimeStepValidForCurrentRange` (`3h → 0.125`, `24h → 1`, `7d → 7`,
`30d → 30`). -/
def presetDays : TimeRangePreset → ℚ
  | .h3 => 1 / 8
  | .h24 => 1
  | .d7 => 7
  | .d30 => 30

/-- The preset tag string, as used in the initial-load key. -/
def presetTag : TimeRangePreset → String
  | .h3 => "3h"
  | .h24 => "24h"
  | .d7 => "7d"
  | .d30 => "30d"

/-- The range descriptor used in the initial-load key:
`timeRange.type === "preset" ? timeRange.preset : "custom"`. -/
def rangeTag : TimeRange → String
  | .preset p => presetTag p
  | .custom _ => "custom"

/-- `new Date(t).toISOString().split("T")[0]`: the UTC day number of a
millisecond timestamp (floor division by `dayMs`). -/
def isoDateOfMs (t : Int) : Int := t.fdiv dayMs

/-- `Math.ceil(diff / dayMs)` on an integer millisecond difference. -/
def ceilDivDayMs (diff : Int) : Int := -((-diff).fdiv dayMs)

/-- `adjustTimeRangeIfNeeded` from `ModuleAirSidePanel`, parameterised by
the `getMaxHistoryDays` lookup (from `HistoricalTimeRangeSelector`, not
in the sources) and by the current time `now` in milliseconds.  A `none`
lookup means unbounded history; a `some 0` is treated as unbounded too
because the source guards with the JavaScript-falsy test
`if (!maxDays)`.  A preset whose day count exceeds the maximum is
replaced by a custom range from `now - maxDays` days (date part) to
`now` (date part); a custom range whose ceiling day difference exceeds
the maximum is replaced by one starting `maxDays` days before its end
date. -/
def adjustTimeRangeIfNeeded (getMaxHistoryDays : String → Option Nat)
    (now : Int) (timeRange : TimeRange) (timeStep : String) :
    TimeRange × Bool :=
  match getMaxHistoryDays timeStep with
  | none => (timeRange, false)
  | some maxDays =>
    if maxDays = 0 then (timeRange, false)
    else
      match timeRange with
      | .preset p =>
        if presetDays p > (maxDays : ℚ) then
          (.custom ⟨isoDateOfMs (now - (maxDays : Int) * dayMs),
                    isoDateOfMs now⟩, true)
        else (timeRange, false)
      | .custom c =>
        let daysDiff := ceilDivDayMs (c.endDate * dayMs - c.startDate * dayMs)
        if daysDiff > (maxDays : Int) then
          (.custom ⟨isoDateOfMs (c.endDate * dayMs - (maxDays : Int) * dayMs),
                    c.endDate⟩, true)
        else (timeRange, false)

/-- The effective duration of a range in days, as both
`adjustTimeRangeIfNeeded` and `isTimeStepValidForCurrentRange` compute
it: the preset table for presets, the (exact) ceiling day difference for
custom ranges. -/
def rangeDurationDays : TimeRange → ℚ
  | .preset p => presetDays p
  | .custom c => ((c.endDate - c.startDate : Int) : ℚ)

/-- `getMaxHistoryDays`, modelled from the spec: the spec states only
that the hourly step retains at most 30 days and the instantaneous step
at most 1 day; the remaining steps are left unbounded (`null`). -/
def maxHistoryDaysSpec (timeStep : String) : Option Nat :=
  if timeStep = "instantane" then some 1
  else if timeStep = "heure" then some 30
  else none

/-! ## Helper lemmas on the policy functions -/

theorem sub_mul_fdiv (a k d : Int) (hd : 0 < d) :
    (a - k * d).fdiv d = a.fdiv d - k := by
  rw [Int.fdiv_eq_ediv _ (le_of_lt hd), Int.fdiv_eq_ediv _ (le_of_lt hd)]
  have h := Int.add_mul_ediv_right a (-k) (ne_of_gt hd)
  rw [neg_mul] at h
  rw [sub_eq_add_neg, h]
  ring

theorem dayMs_pos : (0 : Int) < dayMs := by decide

/-- Truncating `now - d` days to a date shifts the date of `now` by
exactly `d` days. -/
theorem isoDateOfMs_sub_days (now : Int) (d : Nat) :
    isoDateOfMs (now - (d : Int) * dayMs) = isoDateOfMs now - d := by
  unfold isoDateOfMs
  exact sub_mul_fdiv now d dayMs dayMs_pos

/-- The ceiling day difference between two date-aligned timestamps is
the exact day difference. -/
theorem ceilDivDayMs_mul (e : Int) : ceilDivDayMs (e * dayMs) = e := by
  unfold ceilDivDayMs
  rw [← neg_mul, Int.mul_fdiv_cancel _ (ne_of_gt dayMs_pos), neg_neg]

theorem date_diff_exact (s e : Int) :
    ceilDivDayMs (e * dayMs - s * dayMs) = e - s := by
  rw [← sub_mul, ceilDivDayMs_mul]

/-- The corrected range produced by `adjustTimeRangeIfNeeded` always
fits the step's maximum history. -/
theorem adjustTimeRangeIfNeeded_duration (g : String → Option Nat)
    (now : Int) (r : TimeRange) (s : String) (d : Nat)
    (hg : g s = some d) (hd : d ≠ 0) :
    rangeDurationDays (adjustTimeRangeIfNeeded g now r s).1 ≤ (d : ℚ) := by
  cases r with
  | preset p =>
    unfold adjustTimeRangeIfNeeded
    rw [hg]
    simp only [if_neg hd]
    by_cases hp : presetDays p > (d : ℚ)
    · rw [if_pos hp]
      simp only [rangeDurationDays]
      rw [show isoDateOfMs (now - (d : Int) * dayMs) = isoDateOfMs now - d from
        isoDateOfMs_sub_days now d]
      have : (isoDateOfMs now - (isoDateOfMs now - (d : Int))) = (d : Int) := by
        ring
      rw [this]
      norm_num
    · rw [if_neg hp]
      simpa [rangeDurationDays] using le_of_not_lt hp
  | custom c =>
    unfold adjustTimeRangeIfNeeded
    rw [hg]
    simp only [if_neg hd]
    rw [date_diff_exact]
    by_cases hc : c.endDate - c.startDate > (d : Int)
    · rw [if_pos hc]
      simp only [rangeDurationDays]
      rw [show c.endDate * dayMs - (d : Int) * dayMs
            = (c.endDate - (d : Int)) * dayMs by ring]
      unfold isoDateOfMs
      rw [Int.mul_fdiv_cancel _ (ne_of_gt dayMs_pos)]
      have : (c.endDate - (c.endDate - (d : Int))) = (d : Int) := by ring
      rw [this]
      norm_num
    · rw [if_neg hc]
      simp only [rangeDurationDays]
      exact_mod_cast le_of_not_lt hc

/-- Whether the adjustment fires does not depend on `now`. -/
theorem adjustTimeRangeIfNeeded_flag_independent (g : String → Option Nat)
    (now now' : Int) (r : TimeRange) (s : String) :
    (adjustTimeRangeIfNeeded g now r s).2
      = (adjustTimeRangeIfNeeded g now' r s).2 := by
  unfold adjustTimeRangeIfNeeded
  cases g s with
  | none => rfl
  | some d =>
    by_cases hd : d = 0
    · simp [hd]
    · cases r with
      | preset p =>
        by_cases hp : presetDays p > (d : ℚ) <;> simp [hd, hp]
      | custom c =>
        by_cases hc : ceilDivDayMs (c.endDate * dayMs - c.startDate * dayMs)
            > (d : Int) <;> simp [hd, hc]

/-! ## Claim C4: what `getSupportedTimeStepsForPollutants` returns -/

theorem foldl_filter_steps (tbl : List (String × PollutantConfig))
    (cs : List String) (acc : List String) :
    cs.foldl (fun acc code =>
      match lookupPollutant tbl code with
      | some cfg =>
        match cfg.supportedTimeSteps with
        | some steps =>
          if steps.isEmpty then acc
          else acc.filter (fun timeStep => steps.contains timeStep)
        | none => acc
      | none => acc) acc
    = acc.filter (fun ts => cs.all (stepAllowedBy tbl ts)) := by
  induction cs generalizing acc with
  | nil => simp
  | cons c cs ih =>
    rw [List.foldl_cons, ih]
    rcases hl : lookupPollutant tbl c with _ | cfg
    · simp only
      apply List.filter_congr
      intro x _
      simp [stepAllowedBy, hl]
    · rcases hs : cfg.supportedTimeSteps with _ | steps
      · simp only [hs]
        apply List.filter_congr
        intro x _
        simp [stepAllowedBy, hl, hs]
      · by_cases he : steps.isEmpty
        · simp only [hs, if_pos he]
          apply List.filter_congr
          intro x _
          simp [stepAllowedBy, hl, hs, he]
        · simp only [hs, if_neg he]
          rw [List.filter_filter]
          apply List.filter_congr
          intro x _
          simp [stepAllowedBy, hl, hs, he, Bool.and_comm]

/-- C4 (amended): `getSupportedTimeStepsForPollutants` filters the full
enumerated step list by the conjunction, over the selected pollutants,
of each pollutant's declared constraint (pollutants without a non-empty
declared list constrain nothing); the empty selection yields the full
list.  When the declared sets of the selected pollutants are disjoint
the result is therefore the empty list — there is no fallback to the
full set inside this function. -/
theorem getSupportedTimeSteps_eq_filter (tbl : List (String × PollutantConfig))
    (pollutantCodes : List String) :
    getSupportedTimeStepsForPollutants tbl pollutantCodes
      = MODULEAIR_TIMESTEP_OPTIONS.filter
          (fun ts => pollutantCodes.all (stepAllowedBy tbl ts))
    ∧ getSupportedTimeStepsForPollutants tbl [] = MODULEAIR_TIMESTEP_OPTIONS := by
  constructor
  · unfold getSupportedTimeStepsForPollutants
    by_cases h : pollutantCodes.isEmpty
    · rw [if_pos h]
      rw [List.isEmpty_iff] at h
      subst h
      simp
    · rw [if_neg h, foldl_filter_steps]
  · rfl

/-- C4, counterexample to the fallback clause: with two pollutants whose
declared step sets are disjoint (consistent with the spec's data model),
the intersection is empty and the function returns the empty list, not
the full enumerated set. -/
theorem getSupportedTimeSteps_empty_intersection_no_fallback :
    getSupportedTimeStepsForPollutants
      [("pm25", ⟨"PM2.5", some "µg/m³", some ["heure"]⟩),
       ("co2", ⟨"CO2", some "ppm", some ["jour"]⟩)]
      ["pm25", "co2"] = []
    ∧ ([] : List String) ≠ MODULEAIR_TIMESTEP_OPTIONS := by
  constructor
  · rfl
  · decide

/-! ## Claim C7: idempotence of the reconciliation -/

/-- C7 (amended): reconciling the corrected range again at the same step
— at any later current time — returns that range unchanged and reports
that no correction was made.  (The literal pair equation of the claim
fails when the first call did correct, because the second call's
`wasAdjusted` is `false`; see the counterexample.) -/
theorem adjustTimeRangeIfNeeded_idempotent (g : String → Option Nat)
    (now now' : Int) (r : TimeRange) (s : String) :
    adjustTimeRangeIfNeeded g now'
        (adjustTimeRangeIfNeeded g now r s).1 s
      = ((adjustTimeRangeIfNeeded g now r s).1, false) := by
  rcases hg : g s with _ | d
  · unfold adjustTimeRangeIfNeeded
    rw [hg]
  · by_cases hd : d = 0
    · unfold adjustTimeRangeIfNeeded
      rw [hg]
      simp [hd]
    · rcases r with p | c
      · by_cases hp : presetDays p > (d : ℚ)
        · have h1 : (adjustTimeRangeIfNeeded g now (.preset p) s).1
              = .custom ⟨isoDateOfMs (now - (d : Int) * dayMs),
                         isoDateOfMs now⟩ := by
            unfold adjustTimeRangeIfNeeded
            rw [hg]
            simp [hd, hp]
          rw [h1]
          unfold adjustTimeRangeIfNeeded
          rw [hg]
          simp only [if_neg hd]
          rw [isoDateOfMs_sub_days]
          rw [show isoDateOfMs now * dayMs - (isoDateOfMs now - (d : Int)) * dayMs
                = (d : Int) * dayMs by ring, ceilDivDayMs_mul]
          simp
        · have h1 : (adjustTimeRangeIfNeeded g now (.preset p) s).1
              = .preset p := by
            unfold adjustTimeRangeIfNeeded
            rw [hg]
            simp [hd, hp]
          rw [h1]
          unfold adjustTimeRangeIfNeeded
          rw [hg]
          simp [hd, hp]
      · by_cases hc : ceilDivDayMs (c.endDate * dayMs - c.startDate * dayMs)
            > (d : Int)
        · have h1 : (adjustTimeRangeIfNeeded g now (.custom c) s).1
              = .custom ⟨isoDateOfMs (c.endDate * dayMs - (d : Int) * dayMs),
                         c.endDate⟩ := by
            unfold adjustTimeRangeIfNeeded
            rw [hg]
            simp only [if_neg hd]
            rw [if_pos hc]
          rw [h1]
          unfold adjustTimeRangeIfNeeded
          rw [hg]
          simp only [if_neg hd]
          rw [show c.endDate * dayMs - (d : Int) * dayMs
                = (c.endDate - (d : Int)) * dayMs by ring]
          unfold isoDateOfMs
          rw [Int.mul_fdiv_cancel _ (ne_of_gt dayMs_pos)]
          rw [show c.endDate * dayMs - (c.endDate - (d : Int)) * dayMs
                = (d : Int) * dayMs by ring, ceilDivDayMs_mul]
          simp
        · have h1 : (adjustTimeRangeIfNeeded g now (.custom c) s).1
              = .custom c := by
            unfold adjustTimeRangeIfNeeded
            rw [hg]
            simp only [if_neg hd]
            rw [if_neg hc]
          rw [h1]
          unfold adjustTimeRangeIfNeeded
          rw [hg]
          simp only [if_neg hd]
          rw [if_neg hc]

/-- C7, counterexample to the literal pair equation
`reconcile(reconcile(range, step).correctedRange, step) == reconcile(range, step)`:
at the 7-day preset and the instantaneous step (maximum history 1 day),
the first call corrects and reports `wasAdjusted = true`, while the
second call returns the same corrected range with
`wasAdjusted = false`, so the two pairs differ. -/
theorem adjustTimeRangeIfNeeded_pair_equation_fails :
    adjustTimeRangeIfNeeded maxHistoryDaysSpec 0
        (adjustTimeRangeIfNeeded maxHistoryDaysSpec 0
          (.preset .d7) "instantane").1 "instantane"
      ≠ adjustTimeRangeIfNeeded maxHistoryDaysSpec 0
          (.preset .d7) "instantane" := by
  decide

/-! ## Historical series and the statistics derivation -/

/-- `HistoricalDataPoint` as stored in `historicalData`: a timestamp, a
numeric value and an optional unit.  `value : Option ℚ` models the
JavaScript number-or-null field, with `none` standing for the values the
stats filter `v !== null && !isNaN(v)` removes (null / undefined / NaN)
and `some q` for a finite numeric reading. -/
structure DataPoint where
  timestamp : String
  value : Option ℚ
  unit : Option String
deriving DecidableEq

/-- `state.historicalData`: a record keyed by pollutant code, modelled
as an association list in insertion order; `lookupSeries` models
`historicalData[pollutant]` (with `none` for an absent key). -/
def lookupSeries (historicalData : List (String × List DataPoint))
    (pollutant : String) : Option (List DataPoint) :=
  (historicalData.find? (fun e => e.1 == pollutant)).map (·.2)

/-- The object-spread merge `{...prev.historicalData, [pollutant]: data}`:
an existing key is overwritten in place, a new key is appended. -/
def upsertSeries (historicalData : List (String × List DataPoint))
    (pollutant : String) (data : List DataPoint) :
    List (String × List DataPoint) :=
  if historicalData.any (fun e => e.1 == pollutant) then
    historicalData.map (fun e => if e.1 == pollutant then (pollutant, data) else e)
  else historicalData ++ [(pollutant, data)]

/-- The derived statistics record (`stats` in the component). -/
structure PollutantStats where
  avg : ℚ
  max : ℚ
  min : ℚ
  unit : String
deriving DecidableEq

/-- The unit fallback chain of the stats `useMemo`:
`data[0].unit || pollutants[selectedPollutant]?.unit || "µg/m³"`
(JavaScript `||`, so an empty string also falls through). -/
def statsUnit (tbl : List (String × PollutantConfig))
    (selectedPollutant : String) (data : List DataPoint) : String :=
  let fallback :=
    match lookupPollutant tbl selectedPollutant with
    | some cfg =>
      match cfg.unit with
      | some u => if u = "" then "µg/m³" else u
      | none => "µg/m³"
    | none => "µg/m³"
  match data.head? with
  | some d0 =>
    match d0.unit with
    | some u => if u = "" then fallback else u
    | none => fallback
  | none => fallback

/-- The `stats` `useMemo` of `ModuleAirSidePanel`: statistics over the
primary (first-selected) pollutant's series.  Returns `none` when there
is no primary pollutant (or its code is the empty string, which is falsy
in the source's `!selectedPollutant` guard), when the store has no entry
for it, when its series is empty, or when no numeric samples remain
after the `v !== null && !isNaN(v)` filter; otherwise the arithmetic
mean, `Math.max`, `Math.min` and the display unit. -/
def computeStats (tbl : List (String × PollutantConfig))
    (selectedPollutants : List String)
    (historicalData : List (String × List DataPoint)) :
    Option PollutantStats :=
  match selectedPollutants with
  | [] => none
  | selectedPollutant :: _ =>
    if selectedPollutant = "" then none
    else
      match lookupSeries historicalData selectedPollutant with
      | none => none
      | some data =>
        if data.isEmpty then none
        else
          match data.filterMap (fun d => d.value) with
          | [] => none
          | v :: vs =>
            some { avg := (v :: vs).sum / ((v :: vs).length : ℚ),
                   max := vs.foldl max v,
                   min := vs.foldl min v,
                   unit := statsUnit tbl selectedPollutant data }

/-- C8 (part): a series in which every sample is missing or non-numeric
(or which is empty) yields absent statistics, never zeros. -/
theorem computeStats_all_missing (tbl : List (String × PollutantConfig))
    (selectedPollutants : List String)
    (historicalData : List (String × List DataPoint))
    (hMissing : ∀ p series, selectedPollutants.head? = some p →
      lookupSeries historicalData p = some series →
      series.filterMap (fun d => d.value) = []) :
    computeStats tbl selectedPollutants historicalData = none := by
  unfold computeStats
  match selectedPollutants with
  | [] => rfl
  | p :: rest =>
    by_cases hp : p = ""
    · simp [hp]
    · simp only [if_neg hp]
      rcases hl : lookupSeries historicalData p with _ | series
      · rfl
      · have h := hMissing p series rfl hl
        by_cases he : series.isEmpty
        · simp [he]
        · simp [he, h]

/-- C8: statistics derivation over the primary pollutant's series.  For
the value sequence `[10, 20, 30]` the mean is `20`, the maximum `30` and
the minimum `10`; missing samples are filtered out before computing (the
middle concrete series carries a `none` sample that does not disturb the
result); a series that is empty or all-missing yields `none`, not zeros
(universally quantified, via `computeStats_all_missing`). -/
theorem stats_spec :
    computeStats [] ["pm25"]
        [("pm25", [⟨"t1", some 10, some "µg/m³"⟩,
                   ⟨"t2", some 20, some "µg/m³"⟩,
                   ⟨"t3", some 30, some "µg/m³"⟩])]
      = some ⟨20, 30, 10, "µg/m³"⟩
    ∧ computeStats [] ["pm25"]
        [("pm25", [⟨"t1", some 10, some "µg/m³"⟩,
                   ⟨"t2", none, some "µg/m³"⟩,
                   ⟨"t3", some 30, some "µg/m³"⟩])]
      = some ⟨20, 30, 10, "µg/m³"⟩
    ∧ (∀ tbl selectedPollutants historicalData,
        (∀ p series, selectedPollutants.head? = some p →
          lookupSeries historicalData p = some series →
          series.filterMap (fun d => d.value) = []) →
        computeStats tbl selectedPollutants historicalData = none) := by
  refine ⟨?_, ?_, ?_⟩
  · simp only [computeStats, lookupSeries, statsUnit, List.find?]
    norm_num [List.filterMap_cons, List.filterMap_nil, List.foldl, max_def, min_def]
    exact ⟨by decide, fun h => absurd h (by decide)⟩
  · simp only [computeStats, lookupSeries, statsUnit, List.find?]
    norm_num [List.filterMap_cons, List.filterMap_nil, List.foldl, max_def, min_def]
    exact ⟨by decide, fun h => absurd h (by decide)⟩
  · intro tbl selectedPollutants historicalData hMissing
    exact computeStats_all_missing tbl selectedPollutants historicalData hMissing

/-- C8, witness: the all-missing clause of `stats_spec` applied at a
concrete store whose primary series has only missing samples. -/
theorem stats_spec_witness :
    computeStats [] ["pm25"] [("pm25", [⟨"t1", none, none⟩])] = none := by
  refine (stats_spec).2.2 [] ["pm25"] [("pm25", [⟨"t1", none, none⟩])] ?_
  intro p series hp hl
  simp only [List.head?] at hp
  cases hp
  simp only [lookupSeries, List.find?] at hl
  simp at hl
  rw [← hl]
  decide

/-! ## `ModuleAirService.fetchHistoricalData` -/

/-- A JSON field value as the service sees it: `null`, a string, or a
finite number.  (`undefined`/absent fields are `Option.none` at the
lookup level; NaN never appears in JSON.) -/
inductive JsVal
  | vnull
  | vstr (s : String)
  | vnum (q : ℚ)
deriving DecidableEq

/-- One entry of `config/moduleAirSensors.json` (the file itself is not
in the sources; only the shape the service destructures is needed). -/
structure SensorConfig where
  sensorId : String
  token : String
  campagne : String
deriving DecidableEq

/-- A raw response point: a JSON object, modelled as an association list
of fields.  `jsGet` models `point[key]` (`none` = `undefined`). -/
structure RawPoint where
  fields : List (String × JsVal)
deriving DecidableEq

def jsGet (point : RawPoint) (key : String) : Option JsVal :=
  (point.fields.find? (fun e => e.1 == key)).map (·.2)

/-- JavaScript `a ?? b`: `b` when `a` is `undefined` or `null`.  (When
every operand is nullish the model returns `none`; the source
distinguishes a final `undefined` from a final `null`, but the mapping
treats both identically.) -/
def jsCoalesce (a b : Option JsVal) : Option JsVal :=
  match a with
  | none => b
  | some .vnull => b
  | some v => some v

/-- JavaScript truthiness of a JSON value (for the `||` chains). -/
def jsTruthy : JsVal → Bool
  | .vnull => false
  | .vstr s => !(s == "")
  | .vnum q => !(q == 0)

/-- JavaScript `a || b` on possibly-undefined JSON values. -/
def jsOr (a b : Option JsVal) : Option JsVal :=
  match a with
  | some v => if jsTruthy v then some v else b
  | none => b

/-- The candidate keys probed for the pollutant reading, in the order of
the `??` chain of `fetchHistoricalData` (`String.replace` here replaces
every occurrence where JavaScript replaces the first; the probed codes
contain at most one occurrence of each pattern). -/
def historicalValueKeys (pollutant : String) : List String :=
  [pollutant.toUpper,
   pollutant,
   pollutant.toLower,
   pollutant.toUpper,
   pollutant.replace "pm" "PM",
   (pollutant.replace "pm" "PM").replace "25" "2.5",
   (pollutant.replace "pm" "PM").replace "1" "1.0",
   pollutant.replace "temp" "TEMP",
   pollutant.replace "hum" "HUM"]

/-- The `??` chain: the first non-nullish reading among the candidate
keys (`none` when all are `undefined` or `null`). -/
def lookupReading (point : RawPoint) (pollutant : String) : Option JsVal :=
  (historicalValueKeys pollutant).foldr
    (fun key acc => jsCoalesce (jsGet point key) acc) none

/-- The value mapping of `fetchHistoricalData`, parameterised by the
string semantics of `parseFloat` (`pf s = none` models NaN):
`(val !== undefined && val !== null && val !== "-1") ? parseFloat(val) : 0`.
An `undefined`, `null` or `"-1"` reading becomes the number `0`; any
other string is parsed; a numeric reading parses to itself
(`parseFloat` on a finite number round-trips through its decimal
string). -/
def pointValue (pf : String → Option ℚ) (val : Option JsVal) : Option ℚ :=
  match val with
  | none => some 0
  | some .vnull => some 0
  | some (.vstr s) => if s = "-1" then some 0 else pf s
  | some (.vnum q) => some q

/-- One mapped sample (`{ timestamp, value, unit }`), before the NaN
filter: `value = none` models a NaN that the filter will drop. -/
structure HistoricalSample where
  timestamp : Option JsVal
  value : Option ℚ
  unit : String
deriving DecidableEq

/-- `pollutants[params.pollutant]?.unit || ""`. -/
def historicalUnit (tbl : List (String × PollutantConfig))
    (pollutant : String) : String :=
  match lookupPollutant tbl pollutant with
  | some cfg =>
    match cfg.unit with
    | some u => u
    | none => ""
  | none => ""

/-- The per-point mapping of `fetchHistoricalData`:
`timestamp: point.time || point.timestamp || point.date_debut`, the
value mapping above, and the configured unit. -/
def mapHistoricalPoint (tbl : List (String × PollutantConfig))
    (pf : String → Option ℚ) (pollutant : String) (point : RawPoint) :
    HistoricalSample :=
  { timestamp := jsOr (jsGet point "time")
      (jsOr (jsGet point "timestamp") (jsGet point "date_debut")),
    value := pointValue pf (lookupReading point pollutant),
    unit := historicalUnit tbl pollutant }

/-- The settled shape of `makeRequest`: it either throws, or yields a
JSON value that is an array of points or something else. -/
inductive RequestOutcome
  | ok (points : List RawPoint)
  | notArray
  | thrown (message : String)

/-- The parameters of `fetchHistoricalData` (the date bounds only shape
the request URL, which has no bearing on how a settled response is
mapped, so they are carried but unused). -/
structure HistoricalParams where
  sensorId : String
  pollutant : String
  timeStep : String
  startDate : String
  endDate : String

/-- `ModuleAirService.fetchHistoricalData`, from the config lookup to the
resolved value; the returned `Except` models the promise (`Except.error`
would model a rejection).  An unknown sensor resolves with `[]`; a
thrown request is caught and resolves with `[]`; a non-array response
resolves with `[]`; an array is mapped per point and filtered by
`!isNaN(p.value)`. -/
def ModuleAirFetchHistoricalData (sensors : List SensorConfig)
    (tbl : List (String × PollutantConfig)) (pf : String → Option ℚ)
    (params : HistoricalParams) (request : RequestOutcome) :
    Except String (List HistoricalSample) :=
  match sensors.find? (fun s => s.sensorId == params.sensorId) with
  | none => .ok []
  | some _config =>
    match request with
    | .thrown _ => .ok []
    | .notArray => .ok []
    | .ok points =>
      .ok ((points.map (mapHistoricalPoint tbl pf params.pollutant)).filter
        (fun p => p.value.isSome))

/-- C9: `fetchHistoricalData` never rejects — every input resolves
(`Except.ok`); a sensor id absent from the configured list resolves with
the empty array; and a thrown HTTP request is caught and also resolves
with the empty array.  The controller's fetch-rejection path is
therefore unreachable through this service. -/
theorem fetchHistoricalData_never_rejects (sensors : List SensorConfig)
    (tbl : List (String × PollutantConfig)) (pf : String → Option ℚ)
    (params : HistoricalParams) (request : RequestOutcome) :
    (∃ l, ModuleAirFetchHistoricalData sensors tbl pf params request
        = .ok l)
    ∧ (sensors.find? (fun s => s.sensorId == params.sensorId) = none →
        ModuleAirFetchHistoricalData sensors tbl pf params request = .ok [])
    ∧ (∀ msg, ModuleAirFetchHistoricalData sensors tbl pf params
          (.thrown msg) = .ok []) := by
  refine ⟨?_, ?_, ?_⟩
  · unfold ModuleAirFetchHistoricalData
    rcases h : sensors.find? (fun s => s.sensorId == params.sensorId) with _ | c
    · rw [h]
      exact ⟨[], rfl⟩
    · rw [h]
      cases request with
      | ok points => exact ⟨_, rfl⟩
      | notArray => exact ⟨[], rfl⟩
      | thrown m => exact ⟨[], rfl⟩
  · intro h
    unfold ModuleAirFetchHistoricalData
    rw [h]
  · intro msg
    unfold ModuleAirFetchHistoricalData
    rcases h : sensors.find? (fun s => s.sensorId == params.sensorId) with _ | c
    · rw [h]
    · rw [h]

/-- C9, witness: the never-rejects theorem applied at a concrete input
with an unknown sensor id and a thrown request. -/
theorem fetchHistoricalData_never_rejects_witness :
    (∃ l, ModuleAirFetchHistoricalData [] [] (fun _ => none)
        ⟨"s1", "pm25", "heure", "a", "b"⟩ (.thrown "network down") = .ok l)
    ∧ ModuleAirFetchHistoricalData [] [] (fun _ => none)
        ⟨"s1", "pm25", "heure", "a", "b"⟩ (.thrown "network down") = .ok [] := by
  have h := fetchHistoricalData_never_rejects [] [] (fun _ => none)
    ⟨"s1", "pm25", "heure", "a", "b"⟩ (.thrown "network down")
  exact ⟨h.1, h.2.1 rfl⟩

/-- C10: in the service's sample mapping, a raw reading that is
`undefined`, `null` or the string `"-1"` becomes the numeric value `0`
(it is not omitted and not marked missing); a string reading parses via
`parseFloat` and the sample is dropped exactly when that parse is NaN;
and every sample the service returns carries a non-NaN numeric value —
so fabricated zeros can enter the displayed series and statistics. -/
theorem fetchHistoricalData_zero_mapping (pf : String → Option ℚ) :
    pointValue pf none = some 0
    ∧ pointValue pf (some .vnull) = some 0
    ∧ pointValue pf (some (.vstr "-1")) = some 0
    ∧ (∀ s, s ≠ "-1" → pointValue pf (some (.vstr s)) = pf s)
    ∧ (∀ q, pointValue pf (some (.vnum q)) = some q)
    ∧ (∀ sensors tbl params points config sample,
        sensors.find? (fun s => s.sensorId == params.sensorId) = some config →
        ModuleAirFetchHistoricalData sensors tbl pf params (.ok points)
            = .ok (((points.map (mapHistoricalPoint tbl pf params.pollutant)).filter
                (fun p => p.value.isSome)))
        ∧ (sample ∈ (points.map (mapHistoricalPoint tbl pf params.pollutant)).filter
              (fun p => p.value.isSome) → sample.value.isSome = true)) := by
  refine ⟨rfl, rfl, rfl, ?_, fun q => rfl, ?_⟩
  · intro s hs
    simp [pointValue, hs]
  · intro sensors tbl params points config sample hfind
    constructor
    · unfold ModuleAirFetchHistoricalData
      rw [hfind]
    · intro hmem
      exact (List.mem_filter.mp hmem).2

/-! ## The view controller as a transition system

The `ModuleAirSidePanel` component is modelled as a state machine.  Each
external event (the station-change `useEffect`, the three control
handlers, and the settlement of a pending fetch) is a total function on
`ControllerState`.  The `requestAnimationFrame` callback of the initial
load is modelled as running within the station-change event (one legal
schedule: the callback fires before the next event).  Fetch dispatch is
recorded in `inFlight`; a settlement event picks a pending fetch by
index, so settlements may arrive in any order relative to dispatch —
in particular after a station change, which is the race the spec
discusses. -/

/-- `ChartControls` (`state.chartControls`). -/
structure ChartControls where
  selectedPollutants : List String
  timeRange : TimeRange
  timeStep : String
deriving DecidableEq

/-- The slice of `SidePanelState` the claims are about (`infoMessage`
and the panel-size UI state are omitted). -/
structure SidePanelState where
  isOpen : Bool
  selectedStation : Option String
  chartControls : ChartControls
  historicalData : List (String × List DataPoint)
  loading : Bool
  error : Option String
deriving DecidableEq

/-- Whether a dispatched fetch is the full multi-pollutant load
(`loadHistoricalData`) or the single-pollutant background fetch of
`handlePollutantToggle`. -/
inductive FetchKind
  | full
  | incremental (pollutant : String)
deriving DecidableEq

/-- A dispatched, not-yet-settled fetch, carrying its logical request
key: station identity, pollutant list, range, step. -/
structure FetchRequest where
  stationId : String
  pollutants : List String
  timeRange : TimeRange
  timeStep : String
  kind : FetchKind
deriving DecidableEq

/-- Equality of the logical request key (the claim's notion of
"equal request keys"; the kind tag is not part of the key). -/
def sameFetchKey (a b : FetchRequest) : Bool :=
  decide (a.stationId = b.stationId) && decide (a.pollutants = b.pollutants)
    && decide (a.timeRange = b.timeRange) && decide (a.timeStep = b.timeStep)

/-- A station as the panel sees it: its id and its `variables` record
(pollutant code, `en_service` flag); the field is named
`siteVariables` because `variables` is reserved in Lean. -/
structure Station where
  id : String
  siteVariables : List (String × Bool)
deriving DecidableEq

/-- The component state: the React state, the three refs
(`loadingRef`, `initialLoadDoneRef`, `stationIdRef`), the pending
fetches, and a ghost observer `overlappingDup` that records whether a
fetch was ever dispatched while another fetch with an equal key was in
flight (used only to state the deduplication claim). -/
structure ControllerState where
  panel : SidePanelState
  loadingRef : Bool
  initialLoadDone : Option String
  stationIdRef : Option String
  inFlight : List FetchRequest
  overlappingDup : Bool
deriving DecidableEq

/-- Dispatching a fetch: append it to the pending list and update the
ghost duplicate-overlap observer. -/
def dispatchFetch (st : ControllerState) (req : FetchRequest) :
    ControllerState :=
  { st with
    inFlight := st.inFlight ++ [req],
    overlappingDup :=
      st.overlappingDup || st.inFlight.any (fun f => sameFetchKey f req) }

/-- `isPollutantAvailable` from `ModuleAirSidePanel`. -/
def isPollutantAvailable (station : Station) (pollutantCode : String) : Bool :=
  station.siteVariables.any (fun e => e.1 == pollutantCode && e.2)

/-- `getAvailablePollutants` from `ModuleAirSidePanel`: the pollutant
table's codes, in table order, filtered by availability. -/
def getAvailablePollutants (tbl : List (String × PollutantConfig))
    (station : Station) : List String :=
  (tbl.map (·.1)).filter (fun code => isPollutantAvailable station code)

/-- The initial-load dedup key built in the station-change effect. -/
def initialLoadKey (stationId : String) (selectedPollutants : List String)
    (timeRange : TimeRange) (timeStep : String) : String :=
  stationId ++ "-" ++ String.intercalate "," selectedPollutants ++ "-"
    ++ rangeTag timeRange ++ "-" ++ timeStep

/-- The generic failure notice set by `loadHistoricalData`'s catch. -/
def genericLoadError : String :=
  "Erreur lors du chargement des données historiques"

/-- The external events of the controller. -/
inductive PanelEvent
  | syncStation (isOpen : Bool) (station : Option Station)
      (initialPollutant : String)
  | togglePollutant (pollutant : String)
  | timeRangeChange (timeRange : TimeRange) (now : Int)
  | timeStepChange (timeStep : String) (now : Int)
  | settleFull (i : Nat) (outcome : Except String (List (String × List DataPoint)))
  | settleIncremental (i : Nat) (data : List DataPoint)

/-- The station-change `useEffect` (source lines 226–312).  Closing the
panel resets the session refs and the panel state (the chart controls
are kept, as in the source).  A new station resets the controls and the
store, and — when a pollutant is selected and no fetch is in flight —
runs the `requestAnimationFrame` callback: latch `loadingRef`, record
the load key, enter loading and dispatch the full fetch.  A repeated
sync of the same station only refreshes `isOpen`/`selectedStation`. -/
def syncStationEffect (tbl : List (String × PollutantConfig))
    (st : ControllerState) (isOpen : Bool) (station : Option Station)
    (initialPollutant : String) : ControllerState :=
  if isOpen = false then
    { st with
      stationIdRef := none,
      panel := { st.panel with
        isOpen := false, selectedStation := none, historicalData := [],
        loading := false, error := none },
      loadingRef := false,
      initialLoadDone := none }
  else
    match station with
    | none => st
    | some stn =>
      if st.stationIdRef = some stn.id then
        { st with panel := { st.panel with
            isOpen := true, selectedStation := some stn.id } }
      else
        let availablePollutants := getAvailablePollutants tbl stn
        let selectedPollutants :=
          if availablePollutants.contains initialPollutant then
            [initialPollutant]
          else
            match availablePollutants with
            | [] => []
            | a :: _ => [a]
        let nextTimeStep := getInitialTimeStepForPollutants tbl
          selectedPollutants st.panel.chartControls.timeStep
        let initialTimeRange : TimeRange := .preset .h24
        let st1 : ControllerState := { st with
          stationIdRef := some stn.id,
          panel := { st.panel with
            isOpen := true,
            selectedStation := some stn.id,
            chartControls := { selectedPollutants := selectedPollutants,
                               timeRange := initialTimeRange,
                               timeStep := nextTimeStep },
            historicalData := [],
            loading := false,
            error := none },
          initialLoadDone := none }
        if selectedPollutants.isEmpty = false ∧ st.loadingRef = false then
          let loadKey := initialLoadKey stn.id selectedPollutants
            initialTimeRange nextTimeStep
          let st2 := { st1 with
            loadingRef := true,
            initialLoadDone := some loadKey,
            panel := { st1.panel with loading := true, error := none } }
          dispatchFetch st2
            { stationId := stn.id, pollutants := selectedPollutants,
              timeRange := initialTimeRange, timeStep := nextTimeStep,
              kind := .full }
        else st1

/-- `handlePollutantToggle` (source lines 314–352): membership in the
selection is toggled; then — against the pre-toggle state — if a station
is selected and the pollutant has no cached series, a single-pollutant
fetch is dispatched.  The direction of the toggle is not consulted. -/
def handlePollutantToggle (st : ControllerState) (pollutant : String) :
    ControllerState :=
  let prevControls := st.panel.chartControls
  let newSelectedPollutants :=
    if prevControls.selectedPollutants.contains pollutant then
      prevControls.selectedPollutants.filter (fun p => p != pollutant)
    else prevControls.selectedPollutants ++ [pollutant]
  let st1 := { st with panel := { st.panel with
    chartControls := { prevControls with
      selectedPollutants := newSelectedPollutants } } }
  match st.panel.selectedStation,
        lookupSeries st.panel.historicalData pollutant with
  | some sid, none =>
    dispatchFetch st1
      { stationId := sid, pollutants := [pollutant],
        timeRange := prevControls.timeRange,
        timeStep := prevControls.timeStep,
        kind := .incremental pollutant }
  | some _, some _ => st1
  | none, _ => st1

/-- `handleTimeRangeChange` (source lines 407–446): reconcile the new
range against the current step, dispatch a full fetch when a station is
selected (entering loading), and store the validated range.  No
in-flight or key check guards the dispatch. -/
def handleTimeRangeChange (g : String → Option Nat)
    (st : ControllerState) (timeRange : TimeRange) (now : Int) :
    ControllerState :=
  let prev := st.panel.chartControls
  let validatedTimeRange :=
    (adjustTimeRangeIfNeeded g now timeRange prev.timeStep).1
  let st1 :=
    match st.panel.selectedStation with
    | some sid =>
      dispatchFetch
        { st with panel := { st.panel with loading := true, error := none } }
        { stationId := sid, pollutants := prev.selectedPollutants,
          timeRange := validatedTimeRange, timeStep := prev.timeStep,
          kind := .full }
    | none => st
  { st1 with panel := { st1.panel with
    chartControls := { prev with timeRange := validatedTimeRange } } }

/-- `handleTimeStepChange` (source lines 482–524): rejected outright if
the step is not in the supported set for the current selection;
otherwise reconcile the current range against the new step, dispatch a
full fetch when a station is selected, and store the new step and
range. -/
def handleTimeStepChange (tbl : List (String × PollutantConfig))
    (g : String → Option Nat) (st : ControllerState) (timeStep : String)
    (now : Int) : ControllerState :=
  let supportedTimeSteps := getSupportedTimeStepsForPollutants tbl
    st.panel.chartControls.selectedPollutants
  if supportedTimeSteps.contains timeStep = false then st
  else
    let prev := st.panel.chartControls
    let adjustedTimeRange :=
      (adjustTimeRangeIfNeeded g now prev.timeRange timeStep).1
    let st1 :=
      match st.panel.selectedStation with
      | some sid =>
        dispatchFetch
          { st with panel := { st.panel with loading := true, error := none } }
          { stationId := sid, pollutants := prev.selectedPollutants,
            timeRange := adjustedTimeRange, timeStep := timeStep,
            kind := .full }
      | none => st
    { st1 with panel := { st1.panel with
      chartControls := { prev with
        timeStep := timeStep,
        timeRange := adjustedTimeRange } } }

/-- Settlement of a pending full fetch (`loadHistoricalData`, source
lines 200–221).  The handler does not compare the settling fetch's key
with the current session: success replaces the whole store and clears
the loading flags; failure keeps the store, clears the loading flags and
sets the generic error notice (never the raw error text). -/
def settleFullFetch (st : ControllerState) (i : Nat)
    (outcome : Except String (List (String × List DataPoint))) :
    ControllerState :=
  match st.inFlight[i]? with
  | none => st
  | some req =>
    match req.kind with
    | .incremental _ => st
    | .full =>
      let st1 := { st with
        inFlight := st.inFlight.eraseIdx i, loadingRef := false }
      match outcome with
      | .ok newHistoricalData =>
        { st1 with panel := { st1.panel with
          historicalData := newHistoricalData, loading := false } }
      | .error _ =>
        { st1 with panel := { st1.panel with
          loading := false, error := some genericLoadError } }

/-- Settlement of a pending single-pollutant fetch (the `.then` of
`handlePollutantToggle`): merge that pollutant's series into the store,
leaving every other entry as it is.  (The source installs no rejection
handler on this promise; by the never-rejects property of the service
the rejection case cannot occur, so only fulfilment is modelled.) -/
def settleIncrementalFetch (st : ControllerState) (i : Nat)
    (data : List DataPoint) : ControllerState :=
  match st.inFlight[i]? with
  | none => st
  | some req =>
    match req.kind with
    | .full => st
    | .incremental pollutant =>
      let st1 := { st with inFlight := st.inFlight.eraseIdx i }
      { st1 with panel := { st1.panel with
        historicalData := upsertSeries st1.panel.historicalData
          pollutant data } }

/-- One controller step. -/
def applyEvent (tbl : List (String × PollutantConfig))
    (g : String → Option Nat) (st : ControllerState) (e : PanelEvent) :
    ControllerState :=
  match e with
  | .syncStation isOpen station initialPollutant =>
    syncStationEffect tbl st isOpen station initialPollutant
  | .togglePollutant pollutant => handlePollutantToggle st pollutant
  | .timeRangeChange timeRange now =>
    handleTimeRangeChange g st timeRange now
  | .timeStepChange timeStep now =>
    handleTimeStepChange tbl g st timeStep now
  | .settleFull i outcome => settleFullFetch st i outcome
  | .settleIncremental i data => settleIncrementalFetch st i data

/-- A run of the controller from a state through a list of events. -/
def runEvents (tbl : List (String × PollutantConfig))
    (g : String → Option Nat) (st : ControllerState)
    (events : List PanelEvent) : ControllerState :=
  events.foldl (applyEvent tbl g) st

/-- The component's initial state (source lines 82–104), with the
initial time step derived from the initial pollutant and the `"heure"`
default (an empty-string pollutant is falsy and yields no codes). -/
def initControllerState (tbl : List (String × PollutantConfig))
    (initialPollutant : String) : ControllerState :=
  let initialTimeStep := getInitialTimeStepForPollutants tbl
    (if initialPollutant = "" then [] else [initialPollutant]) "heure"
  { panel := { isOpen := false,
               selectedStation := none,
               chartControls := { selectedPollutants := [initialPollutant],
                                  timeRange := .preset .h24,
                                  timeStep := initialTimeStep },
               historicalData := [],
               loading := false,
               error := none },
    loadingRef := false, initialLoadDone := none, stationIdRef := none,
    inFlight := [], overlappingDup := false }

/-! ## Concrete fixtures for traces and counterexamples -/

/-- A pollutant with no declared step restriction, modelled from the
spec's data model. -/
def pm25Config : PollutantConfig := ⟨"PM2.5", some "µg/m³", none⟩

def tblPM : List (String × PollutantConfig) := [("pm25", pm25Config)]

def stationA : Station := ⟨"A", [("pm25", true)]⟩

def stationB : Station := ⟨"B", [("pm25", true)]⟩

/-- A non-empty series, standing for station A's fetched data. -/
def dataA : List DataPoint := [⟨"2024-01-01T00:00:00Z", some 5, some "µg/m³"⟩]

/-! ## Claim C1: stale-response suppression -/

/-- C1: the code has no stale-response suppression.  Trace: select
station A (its full fetch is dispatched and left in flight), select
station B (the in-flight latch even blocks B's own initial fetch), then
A's fetch settles.  The settlement handler compares nothing: it
overwrites the store with A's data and clears the loading flags while
station B is selected, so B's displayed series is populated with A's
data — the claim requires the settlement to be discarded. -/
theorem stale_settlement_overwrites_new_station :
    (runEvents tblPM maxHistoryDaysSpec (initControllerState tblPM "pm25")
        [.syncStation true (some stationA) "pm25",
         .syncStation true (some stationB) "pm25"]).inFlight
      = [⟨"A", ["pm25"], .preset .h24, "heure", .full⟩]
    ∧ (runEvents tblPM maxHistoryDaysSpec (initControllerState tblPM "pm25")
        [.syncStation true (some stationA) "pm25",
         .syncStation true (some stationB) "pm25",
         .settleFull 0 (.ok [("pm25", dataA)])]).panel.selectedStation
      = some "B"
    ∧ (runEvents tblPM maxHistoryDaysSpec (initControllerState tblPM "pm25")
        [.syncStation true (some stationA) "pm25",
         .syncStation true (some stationB) "pm25",
         .settleFull 0 (.ok [("pm25", dataA)])]).panel.historicalData
      = [("pm25", dataA)]
    ∧ dataA ≠ [] := by
  refine ⟨?_, ?_, ?_, ?_⟩ <;> decide

/-! ## Claim C3: fetch deduplication -/

/-- C3, counterexample: after the initial load settles, two identical
time-range changes each dispatch a full fetch; the second is dispatched
while the first — with an equal request key — is still in flight, so the
ghost observer records an equal-key overlap.  The handlers consult no
in-flight or last-key state. -/
theorem duplicate_inflight_fetch_dispatched :
    (runEvents tblPM maxHistoryDaysSpec (initControllerState tblPM "pm25")
        [.syncStation true (some stationA) "pm25",
         .settleFull 0 (.ok [("pm25", dataA)]),
         .timeRangeChange (.preset .h24) 0,
         .timeRangeChange (.preset .h24) 0]).overlappingDup = true := by
  decide

/-- C3 (amended): the in-flight latch guards only the station-change
initial load — a station sync while `loadingRef` is set dispatches
nothing; and the suppression is not permanent: whenever a station is
selected, a time-range change dispatches a fetch unconditionally (in
particular one whose key equals the last admitted key), so identical
keys are admitted again after settlement.  Range/step/toggle handlers
perform no equal-key-while-in-flight check at all (see the
counterexample). -/
theorem fetch_dedup_scope (tbl : List (String × PollutantConfig))
    (g : String → Option Nat) (st : ControllerState) :
    (∀ stn ip, st.loadingRef = true →
      (applyEvent tbl g st (.syncStation true (some stn) ip)).inFlight
        = st.inFlight)
    ∧ (∀ r now sid, st.panel.selectedStation = some sid →
      ∃ req, (applyEvent tbl g st (.timeRangeChange r now)).inFlight
          = st.inFlight ++ [req]) := by
  constructor
  · intro stn ip h
    unfold applyEvent syncStationEffect
    by_cases hid : st.stationIdRef = some stn.id
    · simp [hid]
    · simp [hid, h]
  · intro r now sid hsid
    unfold applyEvent handleTimeRangeChange
    rw [hsid]
    exact ⟨_, rfl⟩

/-- C3, witness for the amended theorem: applied at the state reached
after selecting station A (whose initial fetch is in flight). -/
theorem fetch_dedup_scope_witness :
    (applyEvent tblPM maxHistoryDaysSpec
        (runEvents tblPM maxHistoryDaysSpec (initControllerState tblPM "pm25")
          [.syncStation true (some stationA) "pm25"])
        (.syncStation true (some stationB) "pm25")).inFlight
      = (runEvents tblPM maxHistoryDaysSpec (initControllerState tblPM "pm25")
          [.syncStation true (some stationA) "pm25"]).inFlight
    ∧ ∃ req, (applyEvent tblPM maxHistoryDaysSpec
        (runEvents tblPM maxHistoryDaysSpec (initControllerState tblPM "pm25")
          [.syncStation true (some stationA) "pm25"])
        (.timeRangeChange (.preset .h24) 0)).inFlight
      = (runEvents tblPM maxHistoryDaysSpec (initControllerState tblPM "pm25")
          [.syncStation true (some stationA) "pm25"]).inFlight ++ [req] := by
  have h := fetch_dedup_scope tblPM maxHistoryDaysSpec
    (runEvents tblPM maxHistoryDaysSpec (initControllerState tblPM "pm25")
      [.syncStation true (some stationA) "pm25"])
  exact ⟨h.1 stationB "pm25" (by decide), h.2 (.preset .h24) 0 "A" (by decide)⟩

/-! ## Claim C5: behaviour on fetch rejection -/

/-- C5 (amended): when a pending full fetch rejects, the controller
enters the error state with the fixed generic notice — independent of
the raw error text, which is only logged — clears the loading flag and
the in-flight latch, and leaves the historical store exactly as it was
(no partial results of the failed fetch enter it; after a station
change's initial fetch the store is empty, but a rejection during a
refetch keeps the previous series rather than emptying the store).  The
settlement handler is a total function, so no exception escapes. -/
theorem fetch_rejection_behavior (st : ControllerState) (i : Nat)
    (req : FetchRequest) (msg : String)
    (hreq : st.inFlight[i]? = some req) (hkind : req.kind = .full) :
    (settleFullFetch st i (.error msg)).panel.error = some genericLoadError
    ∧ (settleFullFetch st i (.error msg)).panel.historicalData
        = st.panel.historicalData
    ∧ (settleFullFetch st i (.error msg)).panel.loading = false
    ∧ (settleFullFetch st i (.error msg)).loadingRef = false := by
  obtain ⟨sid, ps, tr, ts, k⟩ := req
  cases k with
  | incremental p => simp at hkind
  | full =>
    unfold settleFullFetch
    rw [hreq]
    exact ⟨rfl, rfl, rfl, rfl⟩

/-- A loading session for station A whose store still holds a previously
fetched series (the refetch situation), with its full fetch pending. -/
def refetchState : ControllerState :=
  { panel := { isOpen := true,
               selectedStation := some "A",
               chartControls := { selectedPollutants := ["pm25"],
                                  timeRange := .preset .h24,
                                  timeStep := "heure" },
               historicalData := [("pm25", dataA)],
               loading := true,
               error := none },
    loadingRef := true, initialLoadDone := none,
    stationIdRef := some "A",
    inFlight := [⟨"A", ["pm25"], .preset .h24, "heure", .full⟩],
    overlappingDup := false }

/-- C5, witness: the rejection theorem applied to the concrete pending
session. -/
theorem fetch_rejection_behavior_witness :
    (settleFullFetch refetchState 0 (.error "HTTP 500")).panel.error
        = some genericLoadError
    ∧ (settleFullFetch refetchState 0 (.error "HTTP 500")).panel.loading
        = false := by
  have h := fetch_rejection_behavior refetchState 0
    ⟨"A", ["pm25"], .preset .h24, "heure", .full⟩ "HTTP 500" (by decide) rfl
  exact ⟨h.1, h.2.2.1⟩

/-- C5, counterexample to "the historical series store is left empty":
a rejection that settles while the store still holds a previously
fetched series (the refetch case) leaves that series in place — the
store is not emptied. -/
theorem fetch_rejection_store_not_emptied :
    (settleFullFetch refetchState 0 (.error "HTTP 500")).panel.historicalData
        = [("pm25", dataA)]
    ∧ (settleFullFetch refetchState 0
        (.error "HTTP 500")).panel.historicalData ≠ [] := by
  refine ⟨?_, ?_⟩ <;> decide

/-! ## Claim C6: pollutant toggle and fetching -/

theorem find?_map_upsert (hd : List (String × List DataPoint))
    (p q : String) (data : List DataPoint) (hq : q ≠ p) :
    (hd.map (fun e => if e.1 == p then (p, data) else e)).find?
        (fun e => e.1 == q)
      = hd.find? (fun e => e.1 == q) := by
  induction hd with
  | nil => rfl
  | cons e t ih =>
    simp only [List.map_cons, List.find?_cons]
    by_cases hep : (e.1 == p) = true
    · have hepEq : e.1 = p := by simpa using hep
      have hpq : (p == q) = false := beq_eq_false_iff_ne.mpr (fun h => hq h.symm)
      have heq : (e.1 == q) = false := by
        rw [hepEq]
        exact hpq
      rw [if_pos hep]
      simp only [hpq, heq]
      exact ih
    · rw [if_neg hep]
      by_cases heq : ((e.1 == q) = true)
      · simp only [heq]
      · simp only [(by simpa using heq : (e.1 == q) = false)]
        exact ih

/-- Merging one pollutant's series leaves every other pollutant's cached
series untouched. -/
theorem lookupSeries_upsert_other (hd : List (String × List DataPoint))
    (p q : String) (data : List DataPoint) (hq : q ≠ p) :
    lookupSeries (upsertSeries hd p data) q = lookupSeries hd q := by
  unfold upsertSeries lookupSeries
  by_cases hmem : hd.any (fun e => e.1 == p)
  · rw [if_pos hmem, find?_map_upsert hd p q data hq]
  · rw [if_neg hmem, List.find?_append]
    have hpq : (p == q) = false := beq_eq_false_iff_ne.mpr (fun h => hq h.symm)
    rcases hf : hd.find? (fun e => e.1 == q) with _ | e
    · rw [hf]
      simp [List.find?, hpq]
    · rw [hf]
      simp

/-- C6 (amended): a pollutant toggle — in either direction — dispatches
a fetch精exactly when a station is selected and the toggled pollutant has
no cached series; a toggle of a pollutant whose series is cached (on or
off) dispatches nothing; the dispatched fetch is a single-pollutant
background fetch whose settlement merges only that pollutant's series,
leaving the other pollutants' cached series untouched.  (The source does
not consult the toggle direction, so a toggle-off of an uncached
pollutant also fetches — see the counterexample.) -/
theorem pollutant_toggle_fetch_policy (st : ControllerState) (p : String) :
    (∀ series, lookupSeries st.panel.historicalData p = some series →
      (handlePollutantToggle st p).inFlight = st.inFlight)
    ∧ (∀ sid, st.panel.selectedStation = some sid →
        lookupSeries st.panel.historicalData p = none →
        (handlePollutantToggle st p).inFlight = st.inFlight ++
          [⟨sid, [p], st.panel.chartControls.timeRange,
            st.panel.chartControls.timeStep, .incremental p⟩])
    ∧ (∀ i req data q, st.inFlight[i]? = some req →
        req.kind = .incremental p → q ≠ p →
        lookupSeries (settleIncrementalFetch st i data).panel.historicalData q
          = lookupSeries st.panel.historicalData q) := by
  refine ⟨?_, ?_, ?_⟩
  · intro series hser
    unfold handlePollutantToggle
    rw [hser]
    rcases hstn : st.panel.selectedStation with _ | sid
    · rfl
    · rfl
  · intro sid hstn hser
    unfold handlePollutantToggle
    rw [hstn, hser]
    rfl
  · intro i req data q hreq hkind hqp
    obtain ⟨sid, ps, tr, ts, k⟩ := req
    cases k with
    | full => simp at hkind
    | incremental p0 =>
      have hp0 : p0 = p := by
        simpa using congrArg (fun k => match k with
          | FetchKind.incremental x => x
          | FetchKind.full => p0) hkind
      subst hp0
      unfold settleIncrementalFetch
      rw [hreq]
      exact lookupSeries_upsert_other st.panel.historicalData p0 q data hqp

/-! ## Claim C2: the ChartControls invariant -/

/-- The duration half of the spec's `ChartControls` invariant: the
active range's duration in days does not exceed the active step's
maximum retrievable history whenever that maximum is bounded (`some d`
with `d ≠ 0`; `none` and the JavaScript-falsy `some 0` are unbounded). -/
def durationWithinMax (g : String → Option Nat) (c : ChartControls) : Bool :=
  match g c.timeStep with
  | some d =>
    if d = 0 then true
    else decide (rangeDurationDays c.timeRange ≤ (d : ℚ))
  | none => true

/-- The spec's `ChartControls` invariant: the active step is a member of
the effective supported set for the current selection, and the active
range fits the step's maximum history. -/
def chartControlsInvariant (tbl : List (String × PollutantConfig))
    (g : String → Option Nat) (c : ChartControls) : Prop :=
  c.timeStep ∈ getSupportedTimeStepsForPollutants tbl c.selectedPollutants
  ∧ durationWithinMax g c = true

/-- Sanity condition on the pollutant table (satisfied by any table
whose declared step lists are subsets of the enumerated options, as the
spec's data model prescribes): every non-empty declared list meets the
enumerated step set. -/
def declaredStepsIntersectOptions
    (tbl : List (String × PollutantConfig)) : Prop :=
  ∀ code cfg steps, lookupPollutant tbl code = some cfg →
    cfg.supportedTimeSteps = some steps → steps.isEmpty = false →
    ∃ t, t ∈ steps ∧ t ∈ MODULEAIR_TIMESTEP_OPTIONS

def isToggleEvent : PanelEvent → Bool
  | .togglePollutant _ => true
  | _ => false

theorem durationWithinMax_congr (g : String → Option Nat)
    (c c' : ChartControls) (h1 : c.timeRange = c'.timeRange)
    (h2 : c.timeStep = c'.timeStep) :
    durationWithinMax g c = durationWithinMax g c' := by
  unfold durationWithinMax
  rw [h1, h2]

/-- A reconciled range always satisfies the duration half of the
invariant at the step it was reconciled against. -/
theorem durationWithinMax_adjust (g : String → Option Nat) (now : Int)
    (r : TimeRange) (s : String) (ps : List String) :
    durationWithinMax g
      ⟨ps, (adjustTimeRangeIfNeeded g now r s).1, s⟩ = true := by
  unfold durationWithinMax
  rcases hg : g s with _ | d
  · simp only [hg]
  · simp only [hg]
    by_cases hd : d = 0
    · simp [hd]
    · rw [if_neg hd]
      exact decide_eq_true (adjustTimeRangeIfNeeded_duration g now r s d hg hd)

/-- The default 24-hour preset fits every step's maximum history. -/
theorem durationWithinMax_h24 (g : String → Option Nat) (ps : List String)
    (s : String) :
    durationWithinMax g ⟨ps, .preset .h24, s⟩ = true := by
  unfold durationWithinMax
  rcases hg : g s with _ | d
  · simp only [hg]
  · simp only [hg]
    by_cases hd : d = 0
    · simp [hd]
    · rw [if_neg hd]
      apply decide_eq_true
      show rangeDurationDays (.preset .h24) ≤ (d : ℚ)
      have h1 : (1 : ℚ) ≤ (d : ℚ) := by
        exact_mod_cast Nat.one_le_iff_ne_zero.mpr hd
      simpa [rangeDurationDays, presetDays] using h1

/-- With a table whose declared lists meet the enumerated options, the
supported set of a singleton selection is never empty. -/
theorem getSupported_singleton_ne_nil (tbl : List (String × PollutantConfig))
    (x : String) (htbl : declaredStepsIntersectOptions tbl) :
    getSupportedTimeStepsForPollutants tbl [x] ≠ [] := by
  have hx : getSupportedTimeStepsForPollutants tbl [x]
      = (match lookupPollutant tbl x with
         | some cfg =>
           match cfg.supportedTimeSteps with
           | some steps =>
             if steps.isEmpty then MODULEAIR_TIMESTEP_OPTIONS
             else MODULEAIR_TIMESTEP_OPTIONS.filter
               (fun timeStep => steps.contains timeStep)
           | none => MODULEAIR_TIMESTEP_OPTIONS
         | none => MODULEAIR_TIMESTEP_OPTIONS) := rfl
  rw [hx]
  cases hl : lookupPollutant tbl x with
  | none => decide
  | some cfg =>
    dsimp only
    cases hs : cfg.supportedTimeSteps with
    | none => decide
    | some steps =>
      dsimp only
      by_cases he : steps.isEmpty
      · rw [if_pos he]
        decide
      · rw [if_neg he]
        obtain ⟨t, ht1, ht2⟩ := htbl x cfg steps hl hs (by simpa using he)
        exact List.ne_nil_of_mem
          (List.mem_filter.mpr ⟨ht2, List.elem_iff.mpr ht1⟩)

/-- Whenever the supported set is non-empty, the chosen initial step is
a member of it. -/
theorem getInitialTimeStep_mem (tbl : List (String × PollutantConfig))
    (codes : List String) (fb : String)
    (h : getSupportedTimeStepsForPollutants tbl codes ≠ []) :
    getInitialTimeStepForPollutants tbl codes fb
      ∈ getSupportedTimeStepsForPollutants tbl codes := by
  unfold getInitialTimeStepForPollutants
  rcases hs : getSupportedTimeStepsForPollutants tbl codes with _ | ⟨s0, rest⟩
  · exact absurd hs h
  · simp only [hs]
    by_cases hc : (s0 :: rest).contains fb = true
    · rw [if_pos hc]
      exact List.elem_iff.mp hc
    · rw [if_neg hc]
      exact List.mem_cons_self s0 rest

/-- The chart controls a fresh station selection installs satisfy the
invariant: the selection is empty or a singleton, the range is the
24-hour default, and the step is chosen from the supported set. -/
theorem newStationControlsInvariant (tbl : List (String × PollutantConfig))
    (g : String → Option Nat) (htbl : declaredStepsIntersectOptions tbl)
    (sel : List String) (fb : String) (hsel : sel = [] ∨ ∃ x, sel = [x]) :
    chartControlsInvariant tbl g
      ⟨sel, .preset .h24, getInitialTimeStepForPollutants tbl sel fb⟩ := by
  constructor
  · have hne : getSupportedTimeStepsForPollutants tbl sel ≠ [] := by
      rcases hsel with h | ⟨x, h⟩
      · subst h
        show MODULEAIR_TIMESTEP_OPTIONS ≠ []
        decide
      · subst h
        exact getSupported_singleton_ne_nil tbl x htbl
    exact getInitialTimeStep_mem tbl sel fb hne
  · exact durationWithinMax_h24 g sel _

/-- The fresh selection a station change computes is empty or a
singleton. -/
theorem newSelectionShape (avail : List String) (ip : String) :
    (if avail.contains ip then [ip]
     else match avail with
          | [] => []
          | a :: _ => [a]) = []
    ∨ ∃ x, (if avail.contains ip then [ip]
            else match avail with
                 | [] => []
                 | a :: _ => [a]) = [x] := by
  by_cases hc : avail.contains ip
  · rw [if_pos hc]
    exact Or.inr ⟨ip, rfl⟩
  · rw [if_neg hc]
    cases avail with
    | nil => exact Or.inl rfl
    | cons a t => exact Or.inr ⟨a, rfl⟩

/-- Case analysis of the chart controls after the station-change effect:
either untouched, or replaced by the fresh-station controls with an
empty or singleton selection. -/
theorem syncStationEffect_controls_cases (tbl : List (String × PollutantConfig))
    (st : ControllerState) (isOpen : Bool) (station : Option Station)
    (ip : String) :
    (syncStationEffect tbl st isOpen station ip).panel.chartControls
        = st.panel.chartControls
    ∨ ∃ sel, (sel = [] ∨ ∃ x, sel = [x])
      ∧ (syncStationEffect tbl st isOpen station ip).panel.chartControls
        = ⟨sel, .preset .h24,
           getInitialTimeStepForPollutants tbl sel
             st.panel.chartControls.timeStep⟩ := by
  unfold syncStationEffect
  split
  · exact Or.inl rfl
  · split
    · exact Or.inl rfl
    · rename_i stn
      split
      · exact Or.inl rfl
      · refine Or.inr ⟨(if (getAvailablePollutants tbl stn).contains ip then [ip]
            else match getAvailablePollutants tbl stn with
                 | [] => []
                 | a :: _ => [a]),
          newSelectionShape (getAvailablePollutants tbl stn) ip, ?_⟩
        dsimp only
        repeat' split
        all_goals rfl

/-- C2 (amended): with a pollutant table whose non-empty declared step
lists meet the enumerated options, the `ChartControls` invariant is
established by a station selection and preserved by every controller
event except a pollutant toggle; a pollutant toggle always preserves the
duration half of the invariant (it changes neither range nor step), but
it can break the step-membership half, because the handler never
re-narrows the active step to the new selection's supported set (see the
counterexample). -/
theorem chartControls_invariant_preservation
    (tbl : List (String × PollutantConfig)) (g : String → Option Nat)
    (st : ControllerState) (e : PanelEvent)
    (htbl : declaredStepsIntersectOptions tbl)
    (hinv : chartControlsInvariant tbl g st.panel.chartControls) :
    (isToggleEvent e = false →
      chartControlsInvariant tbl g
        (applyEvent tbl g st e).panel.chartControls)
    ∧ durationWithinMax g (applyEvent tbl g st e).panel.chartControls
        = true := by
  cases e with
  | syncStation isOpen station ip =>
    have happ : (applyEvent tbl g st
        (.syncStation isOpen station ip)).panel.chartControls
        = (syncStationEffect tbl st isOpen station ip).panel.chartControls :=
      rfl
    rcases syncStationEffect_controls_cases tbl st isOpen station ip
      with hsame | ⟨sel, hshape, heq⟩
    · rw [happ, hsame]
      exact ⟨fun _ => hinv, hinv.2⟩
    · rw [happ, heq]
      have h := newStationControlsInvariant tbl g htbl sel
        st.panel.chartControls.timeStep hshape
      exact ⟨fun _ => h, h.2⟩
  | togglePollutant p =>
    have hctrl :
        (handlePollutantToggle st p).panel.chartControls.timeRange
            = st.panel.chartControls.timeRange
        ∧ (handlePollutantToggle st p).panel.chartControls.timeStep
            = st.panel.chartControls.timeStep := by
      unfold handlePollutantToggle
      split
      · exact ⟨rfl, rfl⟩
      · exact ⟨rfl, rfl⟩
      · exact ⟨rfl, rfl⟩
    have happ : applyEvent tbl g st (.togglePollutant p)
        = handlePollutantToggle st p := rfl
    rw [happ]
    constructor
    · intro hfalse
      simp [isToggleEvent] at hfalse
    · rw [durationWithinMax_congr g _ st.panel.chartControls hctrl.1 hctrl.2]
      exact hinv.2
  | timeRangeChange r now =>
    have hctrl : (applyEvent tbl g st
        (.timeRangeChange r now)).panel.chartControls
        = ⟨st.panel.chartControls.selectedPollutants,
           (adjustTimeRangeIfNeeded g now r st.panel.chartControls.timeStep).1,
           st.panel.chartControls.timeStep⟩ := by
      have happ : applyEvent tbl g st (.timeRangeChange r now)
          = handleTimeRangeChange g st r now := rfl
      rw [happ]
      unfold handleTimeRangeChange
      split
      · rfl
      · rfl
    rw [hctrl]
    refine ⟨fun _ => ⟨hinv.1, ?_⟩, ?_⟩
    · exact durationWithinMax_adjust g now r st.panel.chartControls.timeStep _
    · exact durationWithinMax_adjust g now r st.panel.chartControls.timeStep _
  | timeStepChange s now =>
    by_cases hsup : (getSupportedTimeStepsForPollutants tbl
        st.panel.chartControls.selectedPollutants).contains s = false
    · have hctrl : applyEvent tbl g st (.timeStepChange s now) = st := by
        have happ : applyEvent tbl g st (.timeStepChange s now)
            = handleTimeStepChange tbl g st s now := rfl
        rw [happ]
        unfold handleTimeStepChange
        rw [if_pos hsup]
      rw [hctrl]
      exact ⟨fun _ => hinv, hinv.2⟩
    · have hmem : s ∈ getSupportedTimeStepsForPollutants tbl
          st.panel.chartControls.selectedPollutants := by
        have : (getSupportedTimeStepsForPollutants tbl
            st.panel.chartControls.selectedPollutants).contains s = true := by
          simpa using hsup
        exact List.elem_iff.mp this
      have hctrl : (applyEvent tbl g st
          (.timeStepChange s now)).panel.chartControls
          = ⟨st.panel.chartControls.selectedPollutants,
             (adjustTimeRangeIfNeeded g now
               st.panel.chartControls.timeRange s).1, s⟩ := by
        have happ : applyEvent tbl g st (.timeStepChange s now)
            = handleTimeStepChange tbl g st s now := rfl
        rw [happ]
        unfold handleTimeStepChange
        rw [if_neg hsup]
      rw [hctrl]
      refine ⟨fun _ => ⟨hmem, ?_⟩, ?_⟩
      · exact durationWithinMax_adjust g now
          st.panel.chartControls.timeRange s _
      · exact durationWithinMax_adjust g now
          st.panel.chartControls.timeRange s _
  | settleFull i outcome =>
    have hctrl : (applyEvent tbl g st
        (.settleFull i outcome)).panel.chartControls
        = st.panel.chartControls := by
      have happ : applyEvent tbl g st (.settleFull i outcome)
          = settleFullFetch st i outcome := rfl
      rw [happ]
      unfold settleFullFetch
      split
      · rfl
      · split
        · rfl
        · split
          · rfl
          · rfl
    rw [hctrl]
    exact ⟨fun _ => hinv, hinv.2⟩
  | settleIncremental i data =>
    have hctrl : (applyEvent tbl g st
        (.settleIncremental i data)).panel.chartControls
        = st.panel.chartControls := by
      have happ : applyEvent tbl g st (.settleIncremental i data)
          = settleIncrementalFetch st i data := rfl
      rw [happ]
      unfold settleIncrementalFetch
      split
      · rfl
      · split
        · rfl
        · rfl
    rw [hctrl]
    exact ⟨fun _ => hinv, hinv.2⟩

/-- A table with one pollutant restricted to the hourly step, consistent
with the spec's data model (modelled from the spec, since the concrete
table is not in the sources). -/
def tblC2 : List (String × PollutantConfig) :=
  [("co2", ⟨"CO2", some "ppm", some ["heure"]⟩)]

/-- A session viewing `pm25` at the instantaneous step. -/
def instantaneState : ControllerState :=
  { panel := { isOpen := true,
               selectedStation := some "A",
               chartControls := { selectedPollutants := ["pm25"],
                                  timeRange := .preset .h24,
                                  timeStep := "instantane" },
               historicalData := [("pm25", dataA)],
               loading := false,
               error := none },
    loadingRef := false, initialLoadDone := none,
    stationIdRef := some "A", inFlight := [], overlappingDup := false }

/-- C2, counterexample: toggling on a pollutant that supports only the
hourly step, while the active step is instantaneous, leaves the active
step outside the effective supported set of the new selection —
`handlePollutantToggle` never re-narrows the step, so the invariant is
not preserved by every controller operation. -/
theorem pollutant_toggle_breaks_step_membership :
    chartControlsInvariant tblC2 maxHistoryDaysSpec
      instantaneState.panel.chartControls
    ∧ (applyEvent tblC2 maxHistoryDaysSpec instantaneState
        (.togglePollutant "co2")).panel.chartControls.selectedPollutants
      = ["pm25", "co2"]
    ∧ ¬ chartControlsInvariant tblC2 maxHistoryDaysSpec
        (applyEvent tblC2 maxHistoryDaysSpec instantaneState
          (.togglePollutant "co2")).panel.chartControls := by
  refine ⟨⟨by decide, by decide⟩, by decide, ?_⟩
  intro h
  exact absurd h.1 (by decide)

/-- C2, witness: the preservation theorem applied at the empty table,
the spec's step bounds, the initial controller state and a time-range
change. -/
theorem chartControls_invariant_preservation_witness :
    (isToggleEvent (.timeRangeChange (.preset .d7) 0) = false →
      chartControlsInvariant [] maxHistoryDaysSpec
        (applyEvent [] maxHistoryDaysSpec (initControllerState [] "pm25")
          (.timeRangeChange (.preset .d7) 0)).panel.chartControls)
    ∧ durationWithinMax maxHistoryDaysSpec
        (applyEvent [] maxHistoryDaysSpec (initControllerState [] "pm25")
          (.timeRangeChange (.preset .d7) 0)).panel.chartControls = true := by
  exact chartControls_invariant_preservation [] maxHistoryDaysSpec
    (initControllerState [] "pm25") (.timeRangeChange (.preset .d7) 0)
    (by
      intro code cfg steps h
      simp [lookupPollutant] at h)
    (⟨by decide, by decide⟩)

/-- A session with a pending single-pollutant fetch for `pm25` and a
cached series only for `co2`. -/
def incrementalState : ControllerState :=
  { panel := { isOpen := true,
               selectedStation := some "A",
               chartControls := { selectedPollutants := ["co2", "pm25"],
                                  timeRange := .preset .h24,
                                  timeStep := "heure" },
               historicalData := [("co2", dataA)],
               loading := false,
               error := none },
    loadingRef := false, initialLoadDone := none,
    stationIdRef := some "A",
    inFlight := [⟨"A", ["pm25"], .preset .h24, "heure", .incremental "pm25"⟩],
    overlappingDup := false }

/-- C6, witness: the toggle policy applied at concrete sessions — a
cached toggle dispatches nothing, an uncached toggle dispatches the
single-pollutant fetch, and its settlement leaves the other pollutant's
series untouched. -/
theorem pollutant_toggle_fetch_policy_witness :
    (handlePollutantToggle refetchState "pm25").inFlight
        = refetchState.inFlight
    ∧ (handlePollutantToggle incrementalState "pm25").inFlight
        = incrementalState.inFlight
          ++ [⟨"A", ["pm25"], .preset .h24, "heure", .incremental "pm25"⟩]
    ∧ lookupSeries (settleIncrementalFetch incrementalState 0
          dataA).panel.historicalData "co2"
        = lookupSeries incrementalState.panel.historicalData "co2" := by
  have h1 := (pollutant_toggle_fetch_policy refetchState "pm25").1
    dataA (by decide)
  have h2 := (pollutant_toggle_fetch_policy incrementalState "pm25").2.1
    "A" (by decide) (by decide)
  have h3 := (pollutant_toggle_fetch_policy incrementalState "pm25").2.2
    0 ⟨"A", ["pm25"], .preset .h24, "heure", .incremental "pm25"⟩
    dataA "co2" (by decide) rfl (by decide)
  exact ⟨h1, h2, h3⟩

/-- C6, counterexample: right after a station selection — before the
initial fetch settles — the selected pollutant has no cached series;
toggling it OFF (the selection becomes empty) still dispatches a fetch,
because the handler checks only the cache, never the toggle direction.
This refutes "toggling a pollutant off never triggers any fetch". -/
theorem toggle_off_uncached_triggers_fetch :
    (runEvents tblPM maxHistoryDaysSpec (initControllerState tblPM "pm25")
        [.syncStation true (some stationA) "pm25"]).panel.chartControls.selectedPollutants
      = ["pm25"]
    ∧ lookupSeries (runEvents tblPM maxHistoryDaysSpec
        (initControllerState tblPM "pm25")
        [.syncStation true (some stationA) "pm25"]).panel.historicalData
        "pm25" = none
    ∧ (applyEvent tblPM maxHistoryDaysSpec
        (runEvents tblPM maxHistoryDaysSpec (initControllerState tblPM "pm25")
          [.syncStation true (some stationA) "pm25"])
        (.togglePollutant "pm25")).panel.chartControls.selectedPollutants
      = []
    ∧ (applyEvent tblPM maxHistoryDaysSpec
        (runEvents tblPM maxHistoryDaysSpec (initControllerState tblPM "pm25")
          [.syncStation true (some stationA) "pm25"])
        (.togglePollutant "pm25")).inFlight
      = (runEvents tblPM maxHistoryDaysSpec (initControllerState tblPM "pm25")
          [.syncStation true (some stationA) "pm25"]).inFlight
        ++ [⟨"A", ["pm25"], .preset .h24, "heure", .incremental "pm25"⟩] := by
  refine ⟨?_, ?_, ?_, ?_⟩ <;> decide

/-- C10, witness: the zero-mapping theorem applied at a parse function
that treats every string as NaN (so a plain string sample is dropped)
and at a configured sensor with an empty response array. -/
theorem fetchHistoricalData_zero_mapping_witness :
    pointValue (fun _ => none) (some (.vstr "5")) = none
    ∧ ModuleAirFetchHistoricalData [⟨"s1", "tok", "camp"⟩] [] (fun _ => none)
        ⟨"s1", "pm25", "heure", "a", "b"⟩ (.ok []) = .ok [] := by
  have h := fetchHistoricalData_zero_mapping (fun _ => none)
  refine ⟨?_, ?_⟩
  · have h4 := h.2.2.2.1 "5" (by decide)
    simpa using h4
  · have h6 := (h.2.2.2.2.2 [⟨"s1", "tok", "camp"⟩] []
      ⟨"s1", "pm25", "heure", "a", "b"⟩ [] ⟨"s1", "tok", "camp"⟩
      ⟨none, none, ""⟩ rfl).1
    simpa using h6
